import Mathlib

/-!
Verification development for the TokenExplorer server core.

The embedding below is a shallow model of the TypeScript sources:

* `src/server/openai.ts` / `src/shared/schema.ts` — the function
  `getCompletionWithProbabilities`, which substitutes the model identifier,
  issues one upstream call, and normalizes the per-token log-probability
  data of the response into `TokenProbability` records;
* `src/shared/schema.ts` — the zod request schema `openaiRequestSchema`;
* `src/server/routes.ts` — the `/api/openai` request handler with its
  error branches and the `/api/verify-passkey` handler.

Modelling conventions:

* JavaScript numbers are modelled as `ℚ`; `Math.exp` is an uninterpreted
  parameter `expf : ℚ → ℚ`, so "probability = exponential of the
  log-probability" is stated exactly, with floating-point tolerance folded
  into `expf` being the machine exponential itself.
* `Array.prototype.sort` with the comparator
  `(a, b) => b.probability - a.probability` returns the stable sorted
  permutation in non-increasing probability order; it is modelled by
  `List.insertionSort` with the corresponding relation, which is also the
  stable sorted permutation.
* `String.prototype.startsWith` is modelled character-wise via
  `List.isPrefixOf` on the underlying character lists.
* Absent / `undefined` / `null` JavaScript values are modelled by `Option`.
-/

/-- Entry of `top_logprobs` in the upstream response: an alternative token
with its log-probability. -/
structure TopLogprob where
  token : String
  logprob : ℚ
deriving DecidableEq

/-- One element of `response.choices[0].logprobs.content`: the chosen token,
its log-probability, and the optional list of top alternatives. The code
guards on `if (tokenLogprob.top_logprobs)`, so the field is optional here. -/
structure TokenLogprob where
  token : String
  logprob : ℚ
  top_logprobs : Option (List TopLogprob)
deriving DecidableEq

/-- An alternative token with its (exponentiated) probability, as emitted in
`TokenProbability.alternatives`. -/
structure AltProbability where
  token : String
  probability : ℚ
deriving DecidableEq

/-- The normalized per-token record pushed onto `tokenProbabilities`
(see `tokenProbabilitySchema` in `src/shared/schema.ts`). -/
structure TokenProbability where
  token : String
  probability : ℚ
  alternatives : List AltProbability
deriving DecidableEq

/-- Ordering used by the comparator `(a, b) => b.probability - a.probability`:
`a` may precede `b` exactly when `a`'s probability is at least `b`'s. -/
def probGe (a b : AltProbability) : Prop := b.probability ≤ a.probability

instance : DecidableRel probGe := fun a b => inferInstanceAs (Decidable (b.probability ≤ a.probability))

instance : IsTotal AltProbability probGe := ⟨fun a b => le_total b.probability a.probability⟩

instance : IsTrans AltProbability probGe := ⟨fun _ _ _ h1 h2 => le_trans h2 h1⟩

/-- Body of the `contentLogprobs.forEach` loop in
`getCompletionWithProbabilities`: when `top_logprobs` is present, exponentiate
the chosen token's log-probability, exponentiate each alternative, drop
alternatives whose token text equals the chosen token's text exactly, and sort
the rest by descending probability; when `top_logprobs` is absent, nothing is
pushed. `expf` stands for `Math.exp`. -/
def processEntry (expf : ℚ → ℚ) (t : TokenLogprob) : Option TokenProbability :=
  match t.top_logprobs with
  | none => none
  | some tops =>
    some
      { token := t.token
      , probability := expf t.logprob
      , alternatives :=
          List.insertionSort probGe
            ((tops.filter (fun lp => lp.token != t.token)).map
              (fun lp => { token := lp.token, probability := expf lp.logprob })) }

/-- The `logprobs` object of `response.choices[0]`, with its optional
`content` list. -/
structure LogprobsData where
  content : Option (List TokenLogprob)
deriving DecidableEq

/-- The `usage` object of the upstream response. -/
structure RawUsage where
  prompt_tokens : ℕ
  completion_tokens : ℕ
  total_tokens : ℕ
deriving DecidableEq

/-- The parts of the upstream chat-completion response that
`getCompletionWithProbabilities` reads: `choices[0].message.content`,
`choices[0].logprobs`, and `usage`; each may be absent. -/
structure UpstreamResponse where
  content : Option String
  logprobs : Option LogprobsData
  usage : Option RawUsage
deriving DecidableEq

/-- The probability-normalizer pass over the upstream response
(lines 104–132 of the source): with no `logprobs` or no `logprobs.content`,
the result is the empty list; otherwise each entry is processed by
`processEntry`, entries without `top_logprobs` being skipped. -/
def extractTokenProbabilities (expf : ℚ → ℚ) (resp : UpstreamResponse) : List TokenProbability :=
  match resp.logprobs with
  | none => []
  | some lp =>
    match lp.content with
    | none => []
    | some entries => entries.filterMap (processEntry expf)

/-- Character-wise model of JavaScript `String.prototype.startsWith`. -/
def jsStartsWith (s pre : String) : Bool := pre.data.isPrefixOf s.data

/-- Model-identifier substitution (line 81 of the source):
`model.startsWith("gpt-4") ? "gpt-4o" : model`. -/
def finalModel (model : String) : String :=
  if jsStartsWith model "gpt-4" then "gpt-4o" else model

/-- A validated request, as produced by `openaiRequestSchema.parse`. -/
structure OpenAIRequest where
  prompt : String
  model : String
  temperature : ℚ
  maxTokens : ℚ
  apiKey : String
deriving DecidableEq

/-- The argument object of `openai.chat.completions.create` built by
`getCompletionWithProbabilities`: effective model, one user message,
temperature, token budget, and log-probability reporting with 5 alternatives. -/
structure UpstreamCall where
  model : String
  messages : List (String × String)
  temperature : ℚ
  max_tokens : ℚ
  logprobs : Bool
  top_logprobs : ℕ
deriving DecidableEq

/-- The upstream call issued for a validated request (lines 86–95 of the
source). -/
def upstreamCallOf (req : OpenAIRequest) : UpstreamCall :=
  { model := finalModel req.model
  , messages := [("user", req.prompt)]
  , temperature := req.temperature
  , max_tokens := req.maxTokens
  , logprobs := true
  , top_logprobs := 5 }

/-- The usage block of the result, with `|| 0` fallbacks. -/
structure Usage where
  promptTokens : ℕ
  completionTokens : ℕ
  totalTokens : ℕ
deriving DecidableEq

/-- The value returned by `getCompletionWithProbabilities`. -/
structure CompletionResult where
  text : String
  tokenProbabilities : List TokenProbability
  usage : Usage
  responseTime : String
  model : String
deriving DecidableEq

/-- Result construction of `getCompletionWithProbabilities` (lines 100–147 of
the source), given the upstream response it received and the measured
wall-clock string `responseTime` (timing itself is outside the model). -/
def getCompletionWithProbabilities (expf : ℚ → ℚ) (req : OpenAIRequest)
    (resp : UpstreamResponse) (responseTime : String) : CompletionResult :=
  { text := resp.content.getD ""
  , tokenProbabilities := extractTokenProbabilities expf resp
  , usage :=
      { promptTokens := match resp.usage with | some u => u.prompt_tokens | none => 0
      , completionTokens := match resp.usage with | some u => u.completion_tokens | none => 0
      , totalTokens := match resp.usage with | some u => u.total_tokens | none => 0 }
  , responseTime := responseTime
  , model := finalModel req.model }

/-- The JSON request body of `/api/openai` before validation: each field may
be absent. -/
structure RawRequest where
  prompt : Option String
  model : Option String
  temperature : Option ℚ
  maxTokens : Option ℚ
  apiKey : Option String
deriving DecidableEq

/-- Model of `openaiRequestSchema.parse` (lines 37–43 of
`src/shared/schema.ts`): `prompt` is a required string with `min(1)`;
`model` defaults to `"gpt-3.5-turbo"`; `temperature` is a number in `[0, 2]`
defaulting to `0.7`; `maxTokens` is a number in `[1, 4096]` defaulting to
`150` (the schema has no integrality check); `apiKey` is a required string
with `min(1)`. `none` is a failed parse (a thrown `ZodError`). -/
def openaiRequestParse (r : RawRequest) : Option OpenAIRequest :=
  match r.prompt, r.apiKey with
  | some p, some k =>
    if p = "" ∨ k = "" then none
    else
      let temp := r.temperature.getD (mkRat 7 10)
      let mt := r.maxTokens.getD 150
      if 0 ≤ temp ∧ temp ≤ 2 ∧ 1 ≤ mt ∧ mt ≤ 4096 then
        some
          { prompt := p
          , model := r.model.getD "gpt-3.5-turbo"
          , temperature := temp
          , maxTokens := mt
          , apiKey := k }
      else none
  | _, _ => none

/-- The error thrown by the upstream call, as inspected by the catch block of
`/api/openai`: `responseStatus` models `error.response.status` (absent when
the error has no `response` object), `message` models `error.message`
(absent when the error is not an `Error`). -/
structure UpstreamError where
  responseStatus : Option ℕ
  message : Option String
deriving DecidableEq

/-- Outcome of the single upstream call. -/
inductive UpstreamOutcome where
  | success (resp : UpstreamResponse)
  | failure (err : UpstreamError)
deriving DecidableEq

/-- HTTP outcome of the `/api/openai` handler: a 200 JSON result, or an
error status with a message. -/
inductive HttpOutcome where
  | ok (result : CompletionResult)
  | error (status : ℕ) (message : String)
deriving DecidableEq

/-- JavaScript `x || fallback` on strings: the empty string is falsy. -/
def jsOrElse (s fallback : String) : String := if s = "" then fallback else s

/-- The 500-branch message of the catch block:
`error instanceof Error ? error.message : "Unknown error"`, then
`|| "Internal server error"`. -/
def general500Message (msg : Option String) : String :=
  jsOrElse (msg.getD "Unknown error") "Internal server error"

/-- The non-Zod part of the catch block of `/api/openai`
(lines 35–53 of `src/server/routes.ts`): when the error carries a truthy
`response.status`, mirror that status with `message || "Error from OpenAI
API"`; otherwise respond 500 with the error's own message when present, else
a generic message. Returns (status, message). -/
def handleUpstreamError (e : UpstreamError) : ℕ × String :=
  match e.responseStatus with
  | some st =>
    if st ≠ 0 then (st, jsOrElse (e.message.getD "") "Error from OpenAI API")
    else (500, general500Message e.message)
  | none => (500, general500Message e.message)

/-- The `/api/openai` handler (lines 10–54 of `src/server/routes.ts`): parse
the body with the zod schema — a `ZodError` yields 400 "Invalid request data"
before any upstream call — otherwise forward the validated request upstream
once and either return the completion result or map the upstream error. -/
def handleOpenAIRequest (expf : ℚ → ℚ) (body : RawRequest)
    (upstream : UpstreamOutcome) (responseTime : String) : HttpOutcome :=
  match openaiRequestParse body with
  | none => .error 400 "Invalid request data"
  | some req =>
    match upstream with
    | .success resp => .ok (getCompletionWithProbabilities expf req resp responseTime)
    | .failure e => .error (handleUpstreamError e).1 (handleUpstreamError e).2

/-- The `/api/verify-passkey` handler (lines 62–90 of
`src/server/routes.ts`): `envPasskey` models `process.env.EXPLORER_PASSKEY`
(absent or empty is falsy, giving the 500 configuration error), `submitted`
models `req.body.passkey`. Returns (status, success flag): 200/true on exact
match, 401/false on mismatch, 500/false when unconfigured. -/
def verifyPasskey (envPasskey : Option String) (submitted : Option String) : ℕ × Bool :=
  match envPasskey with
  | none => (500, false)
  | some cp =>
    if cp = "" then (500, false)
    else if submitted = some cp then (200, true)
    else (401, false)

/-- C1: for every upstream per-token log-probability entry processed by the
normalizer, the probability emitted for the chosen token and for each
alternative equals the exponential of the reported log-probability (with
`expf` standing for the machine exponential). -/
theorem C1_probability_is_exponential (expf : ℚ → ℚ) (t : TokenLogprob)
    (tops : List TopLogprob) (out : TokenProbability)
    (htop : t.top_logprobs = some tops) (h : processEntry expf t = some out) :
    out.probability = expf t.logprob ∧
    ∀ a ∈ out.alternatives, ∃ lp ∈ tops, a.token = lp.token ∧ a.probability = expf lp.logprob := by
  rcases t with ⟨tok, lpv, tl⟩
  simp only at htop
  subst htop
  have hout := Option.some.inj h
  subst hout
  refine ⟨rfl, ?_⟩
  intro a ha
  have hperm :=
    List.perm_insertionSort probGe
      ((tops.filter (fun lp => lp.token != tok)).map
        (fun lp => ({ token := lp.token, probability := expf lp.logprob } : AltProbability)))
  rw [hperm.mem_iff] at ha
  obtain ⟨lp, hlp, rfl⟩ := List.mem_map.1 ha
  exact ⟨lp, (List.mem_filter.1 hlp).1, rfl, rfl⟩

/-- Witness for C1 at the spec's example entry (chosen token "Tea",
alternatives "Coffee", "Tea", "Water"). -/
theorem C1_witness :
    ((⟨"Tea", -1, [⟨"Coffee", -2⟩, ⟨"Water", -3⟩]⟩ : TokenProbability)).probability
        = (fun q => q) ((⟨"Tea", -1,
            some [⟨"Coffee", -2⟩, ⟨"Tea", -1⟩, ⟨"Water", -3⟩]⟩ : TokenLogprob)).logprob
      ∧ ∀ a ∈ ((⟨"Tea", -1, [⟨"Coffee", -2⟩, ⟨"Water", -3⟩]⟩ : TokenProbability)).alternatives,
          ∃ lp ∈ [(⟨"Coffee", -2⟩ : TopLogprob), ⟨"Tea", -1⟩, ⟨"Water", -3⟩],
            a.token = lp.token ∧ a.probability = (fun q => q) lp.logprob :=
  C1_probability_is_exponential (fun q => q)
    ⟨"Tea", -1, some [⟨"Coffee", -2⟩, ⟨"Tea", -1⟩, ⟨"Water", -3⟩]⟩
    [⟨"Coffee", -2⟩, ⟨"Tea", -1⟩, ⟨"Water", -3⟩]
    ⟨"Tea", -1, [⟨"Coffee", -2⟩, ⟨"Water", -3⟩]⟩ rfl (by decide)

/-- C2: no emitted alternative's token text exactly equals the chosen token's
text, and the emitted alternatives are a permutation of the exact-match
filtered, exponentiated upstream alternatives — so alternatives differing
only in casing or whitespace are kept, never deduplicated. -/
theorem C2_no_exact_duplicate_of_chosen (expf : ℚ → ℚ) (t : TokenLogprob)
    (tops : List TopLogprob) (out : TokenProbability)
    (htop : t.top_logprobs = some tops) (h : processEntry expf t = some out) :
    (∀ a ∈ out.alternatives, a.token ≠ t.token) ∧
    out.alternatives.Perm
      ((tops.filter (fun lp => lp.token != t.token)).map
        (fun lp => { token := lp.token, probability := expf lp.logprob })) := by
  rcases t with ⟨tok, lpv, tl⟩
  simp only at htop
  subst htop
  have hout := Option.some.inj h
  subst hout
  have hperm :=
    List.perm_insertionSort probGe
      ((tops.filter (fun lp => lp.token != tok)).map
        (fun lp => ({ token := lp.token, probability := expf lp.logprob } : AltProbability)))
  refine ⟨?_, hperm⟩
  intro a ha
  rw [hperm.mem_iff] at ha
  obtain ⟨lp, hlp, rfl⟩ := List.mem_map.1 ha
  simpa using (List.mem_filter.1 hlp).2

/-- Witness for C2: in the example entry, "Tea" is removed from the
alternatives and "Coffee", "Water" are kept. -/
theorem C2_witness :
    (∀ a ∈ ([⟨"Coffee", -2⟩, ⟨"Water", -3⟩] : List AltProbability),
        a.token ≠ ((⟨"Tea", -1,
          some [⟨"Coffee", -2⟩, ⟨"Tea", -1⟩, ⟨"Water", -3⟩]⟩ : TokenLogprob)).token) ∧
    ([⟨"Coffee", -2⟩, ⟨"Water", -3⟩] : List AltProbability).Perm
      [⟨"Coffee", -2⟩, ⟨"Water", -3⟩] :=
  C2_no_exact_duplicate_of_chosen (fun q => q)
    ⟨"Tea", -1, some [⟨"Coffee", -2⟩, ⟨"Tea", -1⟩, ⟨"Water", -3⟩]⟩
    [⟨"Coffee", -2⟩, ⟨"Tea", -1⟩, ⟨"Water", -3⟩]
    ⟨"Tea", -1, [⟨"Coffee", -2⟩, ⟨"Water", -3⟩]⟩ rfl (by decide)

/-- C3: the emitted alternatives list is sorted in non-increasing order of
probability. -/
theorem C3_alternatives_sorted_desc (expf : ℚ → ℚ) (t : TokenLogprob)
    (out : TokenProbability) (h : processEntry expf t = some out) :
    out.alternatives.Pairwise (fun a b => b.probability ≤ a.probability) := by
  rcases t with ⟨tok, lpv, tl⟩
  cases tl with
  | none => cases h
  | some tops =>
    have hout := Option.some.inj h
    subst hout
    exact List.sorted_insertionSort probGe _

/-- Witness for C3 at the example entry: the two surviving alternatives come
out in non-increasing probability order. -/
theorem C3_witness :
    ([⟨"Coffee", -2⟩, ⟨"Water", -3⟩] : List AltProbability).Pairwise
      (fun a b => b.probability ≤ a.probability) :=
  C3_alternatives_sorted_desc (fun q => q)
    ⟨"Tea", -1, some [⟨"Water", -3⟩, ⟨"Coffee", -2⟩, ⟨"Tea", -1⟩]⟩
    ⟨"Tea", -1, [⟨"Coffee", -2⟩, ⟨"Water", -3⟩]⟩ (by decide)

/-- Counterexample to C4 as stated: an upstream entry whose `top_logprobs`
field is absent is skipped by the `if (tokenLogprob.top_logprobs)` guard, so
a one-entry input list yields zero output records, not one. -/
theorem C4_counterexample :
    (extractTokenProbabilities (fun q => q)
        ⟨some "x", some ⟨some [⟨"a", -1, none⟩]⟩, none⟩).length = 0 ∧
    ([(⟨"a", -1, none⟩ : TokenLogprob)]).length = 1 := by decide

/-- C4 (amended): the normalizer emits one TokenProbability per input entry
that carries `top_logprobs` data, and the output sequence lists those entries
in the same order as the input sequence (generation order preserved). -/
theorem C4_order_preserved (expf : ℚ → ℚ) (c : Option String)
    (u : Option RawUsage) (entries : List TokenLogprob) :
    (extractTokenProbabilities expf ⟨c, some ⟨some entries⟩, u⟩).map (fun tp => tp.token)
      = (entries.filter (fun t => t.top_logprobs.isSome)).map (fun t => t.token) := by
  show (entries.filterMap (processEntry expf)).map _ = _
  induction entries with
  | nil => rfl
  | cons t rest ih =>
    cases htop : t.top_logprobs with
    | none => simpa [List.filterMap_cons, List.filter_cons, processEntry, htop] using ih
    | some tops => simpa [List.filterMap_cons, List.filter_cons, processEntry, htop] using ih

/-- C5: an upstream response without log-probability data (no `logprobs`
object, or a `logprobs` object without `content`) yields a successful result
whose `tokenProbabilities` is the empty sequence — not an error. -/
theorem C5_empty_logprobs_not_error (expf : ℚ → ℚ) (body : RawRequest)
    (req : OpenAIRequest) (resp : UpstreamResponse) (rt : String)
    (hparse : openaiRequestParse body = some req)
    (hlp : resp.logprobs = none ∨ resp.logprobs = some ⟨none⟩) :
    handleOpenAIRequest expf body (.success resp) rt
        = .ok (getCompletionWithProbabilities expf req resp rt) ∧
    (getCompletionWithProbabilities expf req resp rt).tokenProbabilities = [] := by
  constructor
  · unfold handleOpenAIRequest
    rw [hparse]
  · show extractTokenProbabilities expf resp = []
    unfold extractTokenProbabilities
    rcases hlp with hlp | hlp <;> rw [hlp]

/-- Witness for C5: a valid body and an upstream response with no `logprobs`
produce a 200 result with an empty token-probability list. -/
theorem C5_witness :
    handleOpenAIRequest (fun q => q) ⟨some "hi", none, none, none, some "k"⟩
        (.success ⟨some "ok", none, none⟩) "0.42"
      = .ok (getCompletionWithProbabilities (fun q => q)
          ⟨"hi", "gpt-3.5-turbo", mkRat 7 10, 150, "k"⟩ ⟨some "ok", none, none⟩ "0.42") ∧
    (getCompletionWithProbabilities (fun q => q)
        ⟨"hi", "gpt-3.5-turbo", mkRat 7 10, 150, "k"⟩ ⟨some "ok", none, none⟩ "0.42").tokenProbabilities
      = [] :=
  C5_empty_logprobs_not_error (fun q => q) ⟨some "hi", none, none, none, some "k"⟩
    ⟨"hi", "gpt-3.5-turbo", mkRat 7 10, 150, "k"⟩ ⟨some "ok", none, none⟩ "0.42"
    (by decide) (Or.inl rfl)

/-- C10: the model-identifier substitution is idempotent — the substituted
target "gpt-4o" itself begins with the legacy "gpt-4" prefix string and is
mapped to itself, and applying the substitution twice equals applying it
once. -/
theorem C10_substitution_idempotent (m : String) :
    finalModel (finalModel m) = finalModel m ∧
    jsStartsWith "gpt-4o" "gpt-4" = true ∧
    finalModel "gpt-4o" = "gpt-4o" := by
  have h4 : jsStartsWith "gpt-4o" "gpt-4" = true := by decide
  refine ⟨?_, h4, by decide⟩
  by_cases h : jsStartsWith m "gpt-4" <;> simp [finalModel, h, h4]

/-- Claim-side acceptance predicate for C6, following the claim's words on a
body whose fields may be supplied: prompt must be non-empty text, a supplied
temperature must lie in [0,2], a supplied maxTokens must be an integer in
[1,4096], and the credential is optional (no constraint). -/
def claimAcceptsC6 (r : RawRequest) : Bool :=
  (match r.prompt with | some p => p != "" | none => false) &&
  (match r.temperature with | some t => decide (0 ≤ t) && decide (t ≤ 2) | none => true) &&
  (match r.maxTokens with
    | some mt => (mt.den == 1) && decide (1 ≤ mt) && decide (mt ≤ 4096)
    | none => true)

/-- Counterexample to C6 as stated: the schema has no integrality check on
maxTokens, so a body with maxTokens = 3/2 is accepted although the claim
rejects it; and the credential (apiKey) is required non-empty, so a body
without it is rejected although the claim accepts it. -/
theorem C6_counterexample :
    ((openaiRequestParse
        ⟨some "hi", some "gpt-3.5-turbo", some 1, some (mkRat 3 2), some "k"⟩).isSome = true
      ∧ claimAcceptsC6
          ⟨some "hi", some "gpt-3.5-turbo", some 1, some (mkRat 3 2), some "k"⟩ = false)
    ∧ (claimAcceptsC6 ⟨some "hi", some "gpt-3.5-turbo", some 1, some 150, none⟩ = true
      ∧ (openaiRequestParse
          ⟨some "hi", some "gpt-3.5-turbo", some 1, some 150, none⟩).isSome = false) := by
  decide

/-- Amended acceptance predicate for C6, from the zod schema itself: prompt
and apiKey are required non-empty strings, temperature (defaulting to 0.7)
must lie in [0,2], and maxTokens (defaulting to 150) must be a number in
[1,4096], with no integrality requirement. -/
def acceptsAmendedC6 (r : RawRequest) : Bool :=
  (match r.prompt with | some p => p != "" | none => false) &&
  (match r.apiKey with | some k => k != "" | none => false) &&
  (decide (0 ≤ r.temperature.getD (mkRat 7 10)) &&
    decide (r.temperature.getD (mkRat 7 10) ≤ 2)) &&
  (decide (1 ≤ r.maxTokens.getD 150) && decide (r.maxTokens.getD 150 ≤ 4096))

/-- C6 (amended): validation accepts a body exactly when prompt and apiKey
are present and non-empty, temperature (default 0.7) is in [0,2] and
maxTokens (default 150) is a number in [1,4096]; a body failing validation is
answered with status 400 and never reaches the upstream call (the outcome is
the same whatever the upstream would have returned). -/
theorem C6_validation (expf : ℚ → ℚ) (rt : String) (r : RawRequest) :
    ((openaiRequestParse r).isSome = true ↔ acceptsAmendedC6 r = true) ∧
    (openaiRequestParse r = none →
      ∀ u1 u2 : UpstreamOutcome,
        handleOpenAIRequest expf r u1 rt = .error 400 "Invalid request data" ∧
        handleOpenAIRequest expf r u1 rt = handleOpenAIRequest expf r u2 rt) := by
  constructor
  · rcases r with ⟨p, m, temp, mt, k⟩
    cases p with
    | none => simp [openaiRequestParse, acceptsAmendedC6]
    | some p =>
      cases k with
      | none => simp [openaiRequestParse, acceptsAmendedC6]
      | some k =>
        by_cases hp : p = ""
        · simp [openaiRequestParse, acceptsAmendedC6, hp]
        · by_cases hk : k = ""
          · simp [openaiRequestParse, acceptsAmendedC6, hp, hk]
          · simp only [openaiRequestParse, acceptsAmendedC6]
            rw [if_neg (by tauto)]
            split_ifs with hb
            · simp [hp, hk, hb]
            · simp [hp, hk]
              first
              | exact hb
              | (intro h1 h2 h3
                 exact lt_of_not_le fun hle => hb ⟨h1, h2, h3, hle⟩)
  · intro hparse u1 u2
    unfold handleOpenAIRequest
    rw [hparse]
    exact ⟨rfl, rfl⟩

/-- Witness for C6 (amended): the empty body is rejected with 400, whatever
the upstream outcome would have been. -/
theorem C6_witness :
    handleOpenAIRequest (fun q => q) ⟨none, none, none, none, none⟩
        (.failure ⟨none, none⟩) "0.00" = .error 400 "Invalid request data" :=
  (((C6_validation (fun q => q) "0.00" ⟨none, none, none, none, none⟩).2 rfl
    (.failure ⟨none, none⟩) (.success ⟨none, none, none⟩)).1)

/-- C7: passkey verification succeeds (200, success flag) exactly on an exact
match with the configured server secret, answers 401 on any mismatch, and
answers 500 when no secret is configured. -/
theorem C7_verify_passkey (cp : String) (submitted : Option String) :
    verifyPasskey none submitted = (500, false) ∧
    (cp ≠ "" → verifyPasskey (some cp) (some cp) = (200, true)) ∧
    (cp ≠ "" → submitted ≠ some cp → verifyPasskey (some cp) submitted = (401, false)) := by
  refine ⟨rfl, ?_, ?_⟩
  · intro h
    simp [verifyPasskey, h]
  · intro h hs
    simp [verifyPasskey, h, hs]

/-- Witness for C7 at a concrete secret and a concrete wrong submission. -/
theorem C7_witness :
    verifyPasskey none (some "x") = (500, false) ∧
    verifyPasskey (some "hunter2") (some "hunter2") = (200, true) ∧
    verifyPasskey (some "hunter2") (some "wrong") = (401, false) := by
  have h := C7_verify_passkey "hunter2" (some "wrong")
  exact ⟨(C7_verify_passkey "hunter2" (some "x")).1, h.2.1 (by decide), h.2.2 (by decide) (by decide)⟩

/-- C8: a model identifier beginning with the legacy "gpt-4" prefix string is
substituted by "gpt-4o" before the upstream call, any other identifier is
forwarded unchanged, the upstream call uses the substituted identifier, and
the returned result's model field is the identifier actually used. -/
theorem C8_model_substitution (expf : ℚ → ℚ) (req : OpenAIRequest)
    (resp : UpstreamResponse) (rt : String) :
    (jsStartsWith req.model "gpt-4" = true → finalModel req.model = "gpt-4o") ∧
    (jsStartsWith req.model "gpt-4" = false → finalModel req.model = req.model) ∧
    (upstreamCallOf req).model = finalModel req.model ∧
    (getCompletionWithProbabilities expf req resp rt).model = finalModel req.model := by
  refine ⟨?_, ?_, rfl, rfl⟩ <;> intro h <;> simp [finalModel, h]

/-- Witness for C8: "gpt-4-turbo" is substituted by "gpt-4o" both in the
upstream call and in the reported result model. -/
theorem C8_witness :
    finalModel "gpt-4-turbo" = "gpt-4o" ∧
    (upstreamCallOf ⟨"hi", "gpt-4-turbo", 1, 150, "k"⟩).model = "gpt-4o" ∧
    (getCompletionWithProbabilities (fun q => q) ⟨"hi", "gpt-4-turbo", 1, 150, "k"⟩
        ⟨none, none, none⟩ "0.00").model = "gpt-4o" := by
  have h := C8_model_substitution (fun q => q) ⟨"hi", "gpt-4-turbo", 1, 150, "k"⟩
    ⟨none, none, none⟩ "0.00"
  have h4 := h.1 (by decide)
  exact ⟨h4, by rw [h.2.2.1, h4], by rw [h.2.2.2, h4]⟩

/-- Counterexample to C9 as stated: when the upstream error carries no status
but does carry a message, the 500 response repeats the error's own message
rather than a generic server error (the generic texts are "Unknown error" /
"Internal server error"), so the 500 body varies with the error. -/
theorem C9_counterexample :
    handleUpstreamError ⟨none, some "connection refused"⟩ = (500, "connection refused") ∧
    handleUpstreamError ⟨none, none⟩ = (500, "Unknown error") ∧
    ("connection refused" : String) ≠ "Internal server error" ∧
    ("connection refused" : String) ≠ "Unknown error" := by decide

/-- C9 (amended): when the upstream error carries a truthy response status,
the handler mirrors that status, with the error's message when non-empty and
a fallback text otherwise; with no response status the handler answers 500
with the error's own message when present and non-empty, else a generic
message; and with a validated body the `/api/openai` route maps a failed
single upstream attempt through exactly this rule. -/
theorem C9_upstream_error_mapping (e : UpstreamError) (st : ℕ) (m : String)
    (expf : ℚ → ℚ) (body : RawRequest) (req : OpenAIRequest) (rt : String) :
    (e.responseStatus = some st → st ≠ 0 → (handleUpstreamError e).1 = st) ∧
    (e.responseStatus = some st → st ≠ 0 → e.message = some m → m ≠ "" →
      (handleUpstreamError e).2 = m) ∧
    (e.responseStatus = none → (handleUpstreamError e).1 = 500) ∧
    (e.responseStatus = none → e.message = some m → m ≠ "" →
      (handleUpstreamError e).2 = m) ∧
    (e.responseStatus = none → e.message = none →
      (handleUpstreamError e).2 = "Unknown error") ∧
    (openaiRequestParse body = some req →
      handleOpenAIRequest expf body (.failure e) rt
        = .error (handleUpstreamError e).1 (handleUpstreamError e).2) := by
  refine ⟨?_, ?_, ?_, ?_, ?_, ?_⟩
  · intro hst hne
    simp [handleUpstreamError, hst, hne]
  · intro hst hne hm hme
    simp [handleUpstreamError, hst, hne, hm, jsOrElse, hme]
  · intro hst
    simp [handleUpstreamError, hst]
  · intro hst hm hme
    simp [handleUpstreamError, hst, hm, general500Message, jsOrElse, hme]
  · intro hst hm
    simp [handleUpstreamError, hst, hm, general500Message, jsOrElse]
  · intro hparse
    unfold handleOpenAIRequest
    rw [hparse]

/-- Witness for C9 (amended) at a concrete 429 upstream error with message
"rate limited", behind a concrete valid body. -/
theorem C9_witness :
    handleOpenAIRequest (fun q => q) ⟨some "hi", none, none, none, some "k"⟩
        (.failure ⟨some 429, some "rate limited"⟩) "0.00" = .error 429 "rate limited" := by
  have h := C9_upstream_error_mapping ⟨some 429, some "rate limited"⟩ 429 "rate limited"
    (fun q => q) ⟨some "hi", none, none, none, some "k"⟩
    ⟨"hi", "gpt-3.5-turbo", mkRat 7 10, 150, "k"⟩ "0.00"
  rw [h.2.2.2.2.2 (by decide), h.1 rfl (by decide), h.2.1 rfl (by decide) rfl (by decide)]
